import Mathlib

/-!
# Verification of the POS dashboard report aggregator and demo-mode guards

This development embeds the analytics/report subsystem of a point-of-sale
web application, together with its demo-mode write guard and the
permission-guard hook, and proves properties of the embedded definitions.

Monetary values in the source are JavaScript `Number`s (Mongoose schema
type `Number`, BSON doubles), and the MongoDB `$sum` accumulator adds
them as IEEE-754 binary64 values.  We therefore model stored amounts as
exact dyadic rationals and model every addition performed by the store as
binary64 round-to-nearest-even addition.
-/

set_option maxRecDepth 2000

namespace POS

/-! ## IEEE-754 binary64 arithmetic model

A finite double is modelled by the exact rational value it denotes.
`fl64` rounds a rational to the nearest representable binary64 value
(round-to-nearest, ties-to-even), in the normal range; the amounts
handled by the application are far from overflow and subnormal
thresholds, so exponent-range clamping is not modelled. -/

/-- Floor of base-2 logarithm of a natural number, by fuelled structural
recursion (so that it reduces definitionally); `log2Fuel n n = ⌊log₂ n⌋`
for `n ≥ 1` since the recursion halves its argument. -/
def log2Fuel : ℕ → ℕ → ℕ
  | 0, _ => 0
  | fuel + 1, n => if 2 ≤ n then log2Fuel fuel (n / 2) + 1 else 0

/-- `⌊log₂ n⌋` for `n ≥ 1` (and `0` for `n = 0`). -/
def natLog2 (n : ℕ) : ℕ := log2Fuel n n

/-- `⌈log₂ n⌉` for `n ≥ 1`: the least `k` with `n ≤ 2^k`. -/
def natClog2 (n : ℕ) : ℕ := if n ≤ 1 then 0 else natLog2 (n - 1) + 1

/-- Round a rational to the nearest integer, ties to even. -/
def rnInt (q : ℚ) : ℤ :=
  let n : ℤ := ⌊q⌋
  let f : ℚ := q - n
  if f < 1/2 then n
  else if 1/2 < f then n + 1
  else if n % 2 = 0 then n else n + 1

/-- `⌊log₂ q⌋` for a positive rational, i.e. the binade exponent `e`
with `2^e ≤ q < 2^(e+1)`. -/
def floorLog2 (q : ℚ) : ℤ :=
  if 1 ≤ q then (natLog2 ⌊q⌋.toNat : ℤ)
  else -(natClog2 ⌈q⁻¹⌉.toNat : ℤ)

/-- Round `q` to the grid of multiples of `2^(-t)`, nearest-even. -/
def roundToGrid (q : ℚ) (t : ℤ) : ℚ :=
  if 0 ≤ t then (rnInt (q * 2 ^ t.toNat) : ℚ) / 2 ^ t.toNat
  else (rnInt (q / 2 ^ (-t).toNat) : ℚ) * 2 ^ (-t).toNat

/-- Round a positive rational to the nearest binary64 value: 53
significant bits, so the grid spacing in the binade of `q` is
`2^(e-52)` where `e = ⌊log₂ q⌋`. -/
def fl64Pos (q : ℚ) : ℚ :=
  roundToGrid q (52 - floorLog2 q)

/-- Round a rational to the nearest binary64 value (normal range). -/
def fl64 (q : ℚ) : ℚ :=
  if q = 0 then 0
  else if q < 0 then -fl64Pos (-q)
  else fl64Pos q

/-- IEEE-754 binary64 addition: exact sum, then rounding. -/
def addF64 (a b : ℚ) : ℚ := fl64 (a + b)

/-- Left fold of binary64 additions starting from `+0.0`: this is how
the MongoDB `$sum` accumulator combines double-typed fields. -/
def sumF64 (l : List ℚ) : ℚ := l.foldl addF64 0

/-- The binary64 value stored for the decimal literal `n/d` (e.g. a
price entered as `1.10` is stored as `jsNumber 110 100`). -/
def jsNumber (n : ℤ) (d : ℕ) : ℚ := fl64 ((n : ℚ) / (d : ℚ))

example : jsNumber 11 10 = 2476979795053773 / 2 ^ 51 := by with_unfolding_all rfl
example : jsNumber 22 10 = 2476979795053773 / 2 ^ 50 := by with_unfolding_all rfl
example : jsNumber 33 10 = 3715469692580659 / 2 ^ 50 := by with_unfolding_all rfl
example : sumF64 [jsNumber 11 10, jsNumber 22 10, jsNumber 33 10]
    = 3715469692580659 / 2 ^ 49 := by with_unfolding_all rfl
example : sumF64 [jsNumber 11 10, jsNumber 22 10, jsNumber 33 10] ≠ 66 / 10 := by
  have h : (sumF64 [jsNumber 11 10, jsNumber 22 10, jsNumber 33 10]).num
      = 3715469692580659 := by with_unfolding_all rfl
  intro he
  rw [he] at h
  norm_num at h

/-! ## Demo-mode write guard

Embedded from `utils/apiHelpers` (the `checkDemoMode` helper shown in the
source) and `utils/demoMode.ts` (`DEMO_MODE = true`).  `checkDemoMode`
reads the module-level constant; we pass the constant's value explicitly
so both configurations can be stated. -/

/-- The structured error value produced by `errorResponse(message)`.
Modelled from the spec: the `errorResponse` helper in `utils/response`
is not in the sources; per the spec it wraps a fixed error message. -/
structure ErrResponse where
  message : String
deriving DecidableEq, Repr

/-- `errorResponse` from `utils/response`. -/
def errorResponse (msg : String) : ErrResponse := ⟨msg⟩

/-- The `DEMO_MODE` constant from `utils/demoMode.ts` (set to `true` in
the demo build of the repository). -/
def DEMO_MODE : Bool := true

/-- `checkDemoMode` from the API helpers: returns the error response if
the demo-mode constant is set, `null` (here `none`) if the operation is
allowed. -/
def checkDemoMode (demoMode : Bool) : Option ErrResponse :=
  if demoMode then
    some (errorResponse "Demo mode - Create/Update/Delete operations are disabled")
  else
    none

/-- A write operation guarded by `checkDemoMode`, following the guard
pattern used by the write path: if the check returns an error response
the operation short-circuits with it, otherwise it proceeds. -/
def guardedWrite {α : Type} (demoMode : Bool) (op : α) : Except ErrResponse α :=
  match checkDemoMode demoMode with
  | some e => Except.error e
  | none => Except.ok op

/-! ## Permission guard hook

Embedded from `src/hooks/usePermissionGuard.tsx`.  The hook's pure
content splits into: whether the `ME` query is skipped, the redirect
decision made by the effect, and the returned result record. -/

/-- The sparse permission object attached to a user: a mapping from
module name to the list of allowed actions.  Modelled from the spec:
the `hasPermission`/`hasAnyPermission` utilities of `utils/permissions`
are not in the sources; per the spec, permissions are an open-ended
object keyed by module name, checked per (module, action). -/
def PermMap : Type := List (String × List String)

instance : DecidableEq PermMap := by
  unfold PermMap
  infer_instance

/-- The empty permission object `{}`. -/
def emptyPerms : PermMap := []

/-- `hasPermission(userPermissions, module, action)`. -/
def hasPermission (perms : PermMap) (module action : String) : Bool :=
  match perms.find? (fun p => p.1 == module) with
  | some p => p.2.contains action
  | none => false

/-- `hasAnyPermission(userPermissions, module, actions)`. -/
def hasAnyPermission (perms : PermMap) (module : String) (actions : List String) : Bool :=
  actions.any (hasPermission perms module)

/-- The data returned by the `ME` query (`meData.me`). -/
structure MeData where
  role : String
  permissions : PermMap

/-- The options record accepted by `usePermissionGuard`. -/
structure GuardOptions where
  module : String
  action : Option String
  anyActions : Option (List String)
  redirectTo : String

/-- The record returned by `usePermissionGuard`. -/
structure GuardResult where
  loading : Bool
  hasAccess : Bool
  userPermissions : PermMap
  userRole : Option String

/-- JavaScript truthiness of an optional string (`undefined` and the
empty string are falsy). -/
def optStringTruthy : Option String → Bool
  | some s => !(s == "")
  | none => false

/-- The `hasAccess` computation of the hook's effect:
`action ? hasPermission(..) : anyActions && anyActions.length > 0 ?
hasAnyPermission(..) : hasPermission(.., "view")`. -/
def guardHasAccessEffect (perms : PermMap) (opts : GuardOptions) : Bool :=
  if optStringTruthy opts.action then
    hasPermission perms opts.module (opts.action.getD "")
  else
    match opts.anyActions with
    | some acts =>
      if acts.length > 0 then hasAnyPermission perms opts.module acts
      else hasPermission perms opts.module "view"
    | none => hasPermission perms opts.module "view"

/-- The `hasAccess` computation of the hook's returned record:
`action ? hasPermission(..) : anyActions ? hasAnyPermission(..) :
hasPermission(.., "view")` (an array is truthy in JavaScript even when
empty, so this branches on mere presence of `anyActions`). -/
def guardHasAccessReturn (perms : PermMap) (opts : GuardOptions) : Bool :=
  if optStringTruthy opts.action then
    hasPermission perms opts.module (opts.action.getD "")
  else
    match opts.anyActions with
    | some acts => hasAnyPermission perms opts.module acts
    | none => hasPermission perms opts.module "view"

/-- Whether the hook issues the `ME` query: `skip: DEMO_MODE`. -/
def guardIssuesMeQuery (demoMode : Bool) : Bool := !demoMode

/-- The redirect decision of the hook's effect: `none` means no
navigation, `some path` means `router.replace(path)`. -/
def guardRedirect (demoMode meLoading : Bool) (me : Option MeData)
    (opts : GuardOptions) : Option String :=
  if demoMode then none
  else if meLoading then none
  else
    match me with
    | none => some "/"
    | some u =>
      if u.role == "SUPER_ADMIN" then none
      else if guardHasAccessEffect u.permissions opts then none
      else if opts.redirectTo ≠ "" then some opts.redirectTo
      else none

/-- The record returned by `usePermissionGuard`. -/
def usePermissionGuard (demoMode meLoading : Bool) (me : Option MeData)
    (opts : GuardOptions) : GuardResult :=
  if demoMode then
    { loading := false
      hasAccess := true
      userPermissions := emptyPerms
      userRole := some "SUPER_ADMIN" }
  else
    { loading := meLoading
      hasAccess :=
        (me.map (·.role) |>.getD "") == "SUPER_ADMIN"
          || guardHasAccessReturn ((me.map (·.permissions)).getD emptyPerms) opts
      userPermissions := (me.map (·.permissions)).getD emptyPerms
      userRole := me.map (·.role) }

/-! ## Report aggregator

Modelled from the spec: the `saleReport` resolver
(`/app/api/graphql/resolvers/salesResolver.ts`) is not among the
sources — only the performance document quotes fragments of its
pipelines — so the aggregator below follows the spec's §3–§7 and the
quoted pipeline fragments.  Record-store documents carry their
timestamp together with the calendar fields (`year`, `month`, `hour`)
that MongoDB's `$month`/`$hour` operators extract from it. -/

/-- A stored timestamp together with its calendar decomposition (the
query executor's `$month` is 1-based, `$hour` is 0-based). -/
structure Timestamp where
  ts : ℤ
  year : ℤ
  month : ℕ
  hour : ℕ
deriving DecidableEq, Repr

/-- Transaction status. -/
inductive SaleStatus
  | COMPLETED
  | REFUNDED
  | VOIDED
deriving DecidableEq, Repr

/-- A `Sale` document (amounts are binary64 values, i.e. exact dyadic
rationals). -/
structure Sale where
  id : ℕ
  createdAt : Timestamp
  status : SaleStatus
  totalAmount : ℚ
  costOfGoods : ℚ
  grossProfit : ℚ
  paymentMethod : String
  cashierId : ℕ
deriving DecidableEq, Repr

/-- A `SaleItem` document. -/
structure SaleItem where
  id : ℕ
  saleId : ℕ
  productId : ℕ
  quantity : ℕ
  priceAtSale : ℚ
deriving DecidableEq, Repr

/-- A `CashDrawer` document. -/
structure CashDrawerEntry where
  id : ℕ
  createdAt : Timestamp
  entryType : String
  amount : ℚ
  cashierId : ℕ
deriving DecidableEq, Repr

/-- The three collections of the Record Store. -/
structure RecordStore where
  sales : List Sale
  saleItems : List SaleItem
  cashDrawer : List CashDrawerEntry
deriving DecidableEq, Repr

/-- The aggregator's arguments. -/
structure ReportArgs where
  periodStart : ℤ
  periodEnd : ℤ
  compareToPrevious : Bool
  year : ℤ
deriving DecidableEq, Repr

/-- The identity of each of the eleven sub-queries of the batch. -/
inductive SubqueryName
  | currentPeriod
  | itemsSold
  | previousPeriod
  | topProducts
  | monthlyTrend
  | monthlyItemsTrend
  | paymentMethod
  | refundStats
  | salesByItem
  | salesByCashier
  | hourlyStats
deriving DecidableEq, Repr

/-- The error taxonomy of the aggregator. -/
inductive SaleReportError
  | invalidPeriod
  | queryFailure (subquery : SubqueryName)
deriving DecidableEq, Repr

/-- A summary block (`$group` with `_id: null` over sales). -/
structure PeriodStats where
  totalAmountSales : ℚ
  totalCostOfGoods : ℚ
  grossProfit : ℚ
  numberOfTransactions : ℕ
deriving DecidableEq, Repr

/-- The all-zero summary sentinel. -/
def zeroStats : PeriodStats :=
  { totalAmountSales := 0
    totalCostOfGoods := 0
    grossProfit := 0
    numberOfTransactions := 0 }

/-- One bucket of the monthly trend. -/
structure MonthBucket where
  month : ℕ
  totalAmountSales : ℚ
  numberOfTransactions : ℕ
deriving DecidableEq, Repr

/-- One bucket of the monthly items trend. -/
structure MonthItemsBucket where
  month : ℕ
  itemsSold : ℕ
deriving DecidableEq, Repr

/-- One bucket of the hourly statistics. -/
structure HourBucket where
  hour : ℕ
  totalAmountSales : ℚ
  numberOfTransactions : ℕ
deriving DecidableEq, Repr

/-- One entry of the top-products ranking. -/
structure ProductRank where
  productId : ℕ
  quantity : ℕ
deriving DecidableEq, Repr

/-- Refund statistics. -/
structure RefundStats where
  refundCount : ℕ
  refundAmount : ℚ
deriving DecidableEq, Repr

/-- The assembled report. -/
structure Report where
  currentPeriodStats : PeriodStats
  previousPeriodStats : PeriodStats
  itemsSoldTotal : ℕ
  topProducts : List ProductRank
  monthlyTrend : List MonthBucket
  monthlyItemsTrend : List MonthItemsBucket
  paymentMethodBreakdown : List (String × ℚ)
  refundStats : RefundStats
  salesByItem : List (ℕ × ℕ)
  salesByCashier : List (ℕ × ℚ × ℕ)
  hourlyStats : List HourBucket
  generatedInMs : ℕ
deriving DecidableEq, Repr

/-! ### Filters and pipelines -/

/-- The inclusive period filter `createdAt ∈ [periodStart, periodEnd]`. -/
def inPeriod (ps pe : ℤ) (t : Timestamp) : Bool :=
  decide (ps ≤ t.ts) && decide (t.ts ≤ pe)

/-- The derived preceding window
`[periodStart - (periodEnd - periodStart), periodStart)` (half-open). -/
def inPrevPeriod (args : ReportArgs) (t : Timestamp) : Bool :=
  decide (args.periodStart - (args.periodEnd - args.periodStart) ≤ t.ts)
    && decide (t.ts < args.periodStart)

/-- The year filter used by the 12-month trends. -/
def inYear (y : ℤ) (t : Timestamp) : Bool := t.year == y

/-- Summarize a list of sales (`$group` accumulators are binary64
`$sum`s). -/
def summarize (sales : List Sale) : PeriodStats :=
  { totalAmountSales := sumF64 (sales.map (·.totalAmount))
    totalCostOfGoods := sumF64 (sales.map (·.costOfGoods))
    grossProfit := sumF64 (sales.map (·.grossProfit))
    numberOfTransactions := sales.length }

/-- A `$group {_id: null}` aggregation returns no row at all when no
document matches; `none` models the empty result array. -/
def summaryAgg (sales : List Sale) : Option PeriodStats :=
  if sales.isEmpty then none else some (summarize sales)

/-- Sub-query 1: completed sales of the current period. -/
def currentPeriodSales (store : RecordStore) (args : ReportArgs) : List Sale :=
  store.sales.filter fun s =>
    s.status == SaleStatus.COMPLETED && inPeriod args.periodStart args.periodEnd s.createdAt

/-- Sub-query 3: completed sales of the derived preceding window. -/
def prevPeriodSales (store : RecordStore) (args : ReportArgs) : List Sale :=
  store.sales.filter fun s =>
    s.status == SaleStatus.COMPLETED && inPrevPeriod args s.createdAt

/-- `$lookup` of a line item's parent transaction. -/
def parentSale (store : RecordStore) (it : SaleItem) : Option Sale :=
  store.sales.find? fun s => s.id == it.saleId

/-- Line items whose parent transaction satisfies a filter on its
timestamp (the join-then-`$match` shape of the item pipelines). -/
def itemsWithParent (store : RecordStore) (p : Sale → Bool) : List SaleItem :=
  store.saleItems.filter fun it =>
    match parentSale store it with
    | some s => p s
    | none => false

/-- Sub-query 2: total quantity of items sold in the period. -/
def itemsSoldTotalPipeline (store : RecordStore) (args : ReportArgs) : ℕ :=
  ((itemsWithParent store fun s =>
      inPeriod args.periodStart args.periodEnd s.createdAt).map (·.quantity)).sum

/-- Fold one `(key, quantity)` pair into `$group`ed totals. -/
def addToGroups : List (ℕ × ℕ) → ℕ → ℕ → List (ℕ × ℕ)
  | [], k, q => [(k, q)]
  | (k', q') :: rest, k, q =>
    if k' == k then (k', q' + q) :: rest else (k', q') :: addToGroups rest k q

/-- `$group` line items by `productId`, summing `quantity`. -/
def groupByProduct (items : List SaleItem) : List (ℕ × ℕ) :=
  items.foldl (fun acc it => addToGroups acc it.productId it.quantity) []

/-- Ranking order of the top-products list: descending summed quantity,
ties broken by ascending `productId`. -/
def rankLE (a b : ProductRank) : Prop :=
  b.quantity < a.quantity ∨ (a.quantity = b.quantity ∧ a.productId ≤ b.productId)

instance : DecidableRel rankLE := fun a b => by
  unfold rankLE
  infer_instance

instance : IsTotal ProductRank rankLE :=
  ⟨fun a b => by
    unfold rankLE
    omega⟩

instance : IsTrans ProductRank rankLE :=
  ⟨fun a b c hab hbc => by
    unfold rankLE at *
    omega⟩

/-- The configured truncation length of the top-products ranking. -/
def topProductsLimit : ℕ := 10

/-- Sub-query 4: the top-products ranking. -/
def topProductsPipeline (store : RecordStore) (args : ReportArgs) : List ProductRank :=
  (((groupByProduct (itemsWithParent store fun s =>
        inPeriod args.periodStart args.periodEnd s.createdAt)).map
      fun p => ProductRank.mk p.1 p.2).insertionSort rankLE).take topProductsLimit

/-- The grouped monthly rows the Record Store returns for sub-query 5:
one row per month that has data (months without transactions produce no
row). -/
def monthlyRaw (store : RecordStore) (y : ℤ) : List MonthBucket :=
  (List.range 12).filterMap fun i =>
    let xs := store.sales.filter fun s =>
      s.status == SaleStatus.COMPLETED && inYear y s.createdAt
        && s.createdAt.month == i + 1
    if xs.isEmpty then none
    else some
      { month := i + 1
        totalAmountSales := sumF64 (xs.map (·.totalAmount))
        numberOfTransactions := xs.length }

/-- The aggregator's zero-fill of the monthly rows: exactly 12 entries
tagged 1–12 in order, synthesizing a zero bucket for absent months. -/
def zeroFillMonths (raw : List MonthBucket) : List MonthBucket :=
  (List.range 12).map fun i =>
    match raw.find? (fun b => b.month == i + 1) with
    | some b => b
    | none => { month := i + 1, totalAmountSales := 0, numberOfTransactions := 0 }

/-- Sub-query 5 with its gap-filling merge step. -/
def monthlyTrendPipeline (store : RecordStore) (args : ReportArgs) : List MonthBucket :=
  zeroFillMonths (monthlyRaw store args.year)

/-- The grouped rows for sub-query 6 (item quantities per month). -/
def monthlyItemsRaw (store : RecordStore) (y : ℤ) : List MonthItemsBucket :=
  (List.range 12).filterMap fun i =>
    let xs := itemsWithParent store fun s =>
      s.status == SaleStatus.COMPLETED && inYear y s.createdAt
        && s.createdAt.month == i + 1
    if xs.isEmpty then none
    else some { month := i + 1, itemsSold := (xs.map (·.quantity)).sum }

/-- Zero-fill for the monthly items trend. -/
def zeroFillItemMonths (raw : List MonthItemsBucket) : List MonthItemsBucket :=
  (List.range 12).map fun i =>
    match raw.find? (fun b => b.month == i + 1) with
    | some b => b
    | none => { month := i + 1, itemsSold := 0 }

/-- Sub-query 6 with its gap-filling merge step. -/
def monthlyItemsTrendPipeline (store : RecordStore) (args : ReportArgs) :
    List MonthItemsBucket :=
  zeroFillItemMonths (monthlyItemsRaw store args.year)

/-- Fold one `(method, amount)` pair into `$group`ed binary64 sums. -/
def addToAmountGroups : List (String × ℚ) → String → ℚ → List (String × ℚ)
  | [], k, a => [(k, a)]
  | (k', a') :: rest, k, a =>
    if k' == k then (k', addF64 a' a) :: rest else (k', a') :: addToAmountGroups rest k a

/-- Sub-query 7: cash-drawer entries of the period grouped by entry
type, summing amounts. -/
def paymentMethodPipeline (store : RecordStore) (args : ReportArgs) : List (String × ℚ) :=
  (store.cashDrawer.filter fun c =>
      inPeriod args.periodStart args.periodEnd c.createdAt).foldl
    (fun acc c => addToAmountGroups acc c.entryType c.amount) []

/-- Sub-query 8: count and binary64 sum of refunded transactions in the
period (`none` models the empty `$group {_id: null}` result). -/
def refundAgg (store : RecordStore) (args : ReportArgs) : Option RefundStats :=
  let xs := store.sales.filter fun s =>
    s.status == SaleStatus.REFUNDED && inPeriod args.periodStart args.periodEnd s.createdAt
  if xs.isEmpty then none
  else some { refundCount := xs.length, refundAmount := sumF64 (xs.map (·.totalAmount)) }

/-- Sub-query 9: the full per-product quantity distribution (no
truncation). -/
def salesByItemPipeline (store : RecordStore) (args : ReportArgs) : List (ℕ × ℕ) :=
  groupByProduct (itemsWithParent store fun s =>
    inPeriod args.periodStart args.periodEnd s.createdAt)

/-- Fold one cashier's sale into `$group`ed totals and counts. -/
def addToCashierGroups : List (ℕ × ℚ × ℕ) → ℕ → ℚ → List (ℕ × ℚ × ℕ)
  | [], k, a => [(k, a, 1)]
  | (k', a', n') :: rest, k, a =>
    if k' == k then (k', addF64 a' a, n' + 1) :: rest
    else (k', a', n') :: addToCashierGroups rest k a

/-- Sub-query 10: completed sales of the period grouped by cashier. -/
def salesByCashierPipeline (store : RecordStore) (args : ReportArgs) : List (ℕ × ℚ × ℕ) :=
  (currentPeriodSales store args).foldl
    (fun acc s => addToCashierGroups acc s.cashierId s.totalAmount) []

/-- The grouped hourly rows for sub-query 11. -/
def hourlyRaw (store : RecordStore) (args : ReportArgs) : List HourBucket :=
  (List.range 24).filterMap fun h =>
    let xs := (currentPeriodSales store args).filter fun s => s.createdAt.hour == h
    if xs.isEmpty then none
    else some
      { hour := h
        totalAmountSales := sumF64 (xs.map (·.totalAmount))
        numberOfTransactions := xs.length }

/-- Zero-fill for the hourly statistics: 24 entries, hours 0–23. -/
def zeroFillHours (raw : List HourBucket) : List HourBucket :=
  (List.range 24).map fun h =>
    match raw.find? (fun b => b.hour == h) with
    | some b => b
    | none => { hour := h, totalAmountSales := 0, numberOfTransactions := 0 }

/-- Sub-query 11 with its gap-filling merge step. -/
def hourlyStatsPipeline (store : RecordStore) (args : ReportArgs) : List HourBucket :=
  zeroFillHours (hourlyRaw store args)

/-! ### Validation, dispatch, and assembly -/

/-- Lower bound of the supported trend years.  Modelled from the spec:
the spec requires a supported range for `year` without fixing its
bounds. -/
def supportedYearMin : ℤ := 1970

/-- Upper bound of the supported trend years. -/
def supportedYearMax : ℤ := 9999

/-- The synchronous argument validation (`InvalidPeriod` taxonomy). -/
def validArgs (a : ReportArgs) : Bool :=
  decide (a.periodStart ≤ a.periodEnd)
    && decide (supportedYearMin ≤ a.year) && decide (a.year ≤ supportedYearMax)

/-- Whether each sub-query's underlying transport fails (`true` models
a simulated transport error for that sub-query). -/
def Transport : Type := SubqueryName → Bool

/-- The sub-queries issued against the Record Store for a given
comparison mode: all eleven, except that sub-query 3 is skipped when
`compareToPrevious` is false. -/
def issuedSubqueries (compareToPrevious : Bool) : List SubqueryName :=
  [SubqueryName.currentPeriod, SubqueryName.itemsSold]
    ++ (if compareToPrevious then [SubqueryName.previousPeriod] else [])
    ++ [SubqueryName.topProducts, SubqueryName.monthlyTrend,
        SubqueryName.monthlyItemsTrend, SubqueryName.paymentMethod,
        SubqueryName.refundStats, SubqueryName.salesByItem,
        SubqueryName.salesByCashier, SubqueryName.hourlyStats]

/-- Run one dispatched sub-query against its transport. -/
def runSub {α : Type} (tr : Transport) (name : SubqueryName) (result : α) :
    Except SaleReportError α :=
  if tr name then Except.error (SaleReportError.queryFailure name) else Except.ok result

/-- Slot 3 of the batch: dispatched only when `compareToPrevious` is
true; otherwise the slot is `Promise.resolve([])`, a successfully
completed empty aggregation result. -/
def prevPeriodSlot (store : RecordStore) (tr : Transport) (args : ReportArgs) :
    Except SaleReportError (Option PeriodStats) :=
  if args.compareToPrevious then
    runSub tr SubqueryName.previousPeriod (summaryAgg (prevPeriodSales store args))
  else Except.ok none

/-- Assemble the Report from the sub-query results (the pure merge at
the join-all point).  Empty summary slots resolve to the zero
sentinel. -/
def assembleReport (store : RecordStore) (tr : Transport) (args : ReportArgs)
    (elapsedMs : ℕ) : Report :=
  { currentPeriodStats := (summaryAgg (currentPeriodSales store args)).getD zeroStats
    previousPeriodStats :=
      (match prevPeriodSlot store tr args with
        | Except.ok o => o
        | Except.error _ => none).getD zeroStats
    itemsSoldTotal := itemsSoldTotalPipeline store args
    topProducts := topProductsPipeline store args
    monthlyTrend := monthlyTrendPipeline store args
    monthlyItemsTrend := monthlyItemsTrendPipeline store args
    paymentMethodBreakdown := paymentMethodPipeline store args
    refundStats := (refundAgg store args).getD { refundCount := 0, refundAmount := 0 }
    salesByItem := salesByItemPipeline store args
    salesByCashier := salesByCashierPipeline store args
    hourlyStats := hourlyStatsPipeline store args
    generatedInMs := elapsedMs }

/-- The observable outcome of one aggregator invocation: the returned
value (or error) and the sub-queries that were dispatched to the
Record Store. -/
structure SaleReportOutcome where
  result : Except SaleReportError Report
  dispatched : List SubqueryName
deriving Repr

/-- The `saleReport` aggregator.  Validation happens synchronously
before any sub-query is dispatched; the dispatched batch is awaited as
a whole (`Promise.all`): the first transport failure among the
dispatched sub-queries rejects the whole call with `QueryFailure`
naming that sub-query, otherwise the Report is assembled from all
results.  `elapsedMs` is the duration measurement supplied by the
injected time provider. -/
def saleReport (store : RecordStore) (tr : Transport) (args : ReportArgs)
    (elapsedMs : ℕ) : SaleReportOutcome :=
  if validArgs args then
    match (issuedSubqueries args.compareToPrevious).find? tr with
    | some q =>
      { result := Except.error (SaleReportError.queryFailure q)
        dispatched := issuedSubqueries args.compareToPrevious }
    | none =>
      { result := Except.ok (assembleReport store tr args elapsedMs)
        dispatched := issuedSubqueries args.compareToPrevious }
  else
    { result := Except.error SaleReportError.invalidPeriod
      dispatched := [] }

/-! ### Concrete inputs used by witnesses and counterexamples -/

/-- A transport on which every sub-query succeeds. -/
def noFail : Transport := fun _ => false

/-- A transport on which exactly the items-sold sub-query fails. -/
def failItemsSold : Transport := fun q => q == SubqueryName.itemsSold

/-- A transport on which exactly the (skipped) previous-period
sub-query would fail. -/
def failPrevPeriod : Transport := fun q => q == SubqueryName.previousPeriod

/-- A valid reporting window with comparison enabled. -/
def demoArgs : ReportArgs :=
  { periodStart := 0, periodEnd := 1000, compareToPrevious := true, year := 2026 }

/-- The same window with comparison disabled. -/
def demoArgsNoCompare : ReportArgs :=
  { periodStart := 0, periodEnd := 1000, compareToPrevious := false, year := 2026 }

/-- An invalid window (`periodStart > periodEnd`). -/
def invalidArgs : ReportArgs :=
  { periodStart := 1000, periodEnd := 0, compareToPrevious := false, year := 2026 }

/-- A completed March-2026 sale inside the demo window. -/
def demoSale (i : ℕ) (t : ℤ) (amt : ℚ) : Sale :=
  { id := i
    createdAt := { ts := t, year := 2026, month := 3, hour := 10 }
    status := SaleStatus.COMPLETED
    totalAmount := amt
    costOfGoods := 0
    grossProfit := 0
    paymentMethod := "CASH"
    cashierId := 1 }

/-- Three completed sales whose amounts are the stored doubles for the
decimal prices 1.10, 2.20 and 3.30. -/
def moneyStore : RecordStore :=
  { sales := [demoSale 1 10 (jsNumber 11 10), demoSale 2 20 (jsNumber 22 10),
              demoSale 3 30 (jsNumber 33 10)]
    saleItems := []
    cashDrawer := [] }

/-- A store whose products 5 and 3 tie at summed quantity 7. -/
def tieStore : RecordStore :=
  { sales := [demoSale 1 10 1]
    saleItems :=
      [{ id := 1, saleId := 1, productId := 5, quantity := 7, priceAtSale := 1 },
       { id := 2, saleId := 1, productId := 3, quantity := 4, priceAtSale := 1 },
       { id := 3, saleId := 1, productId := 3, quantity := 3, priceAtSale := 1 }]
    cashDrawer := [] }

/-- A store whose only records fall outside the demo window, its
preceding window, and the demo trend year. -/
def outsideStore : RecordStore :=
  { sales := [{ id := 9
                createdAt := { ts := 5000, year := 2020, month := 3, hour := 10 }
                status := SaleStatus.COMPLETED
                totalAmount := 1
                costOfGoods := 0
                grossProfit := 0
                paymentMethod := "CASH"
                cashierId := 1 }]
    saleItems := []
    cashDrawer := [{ id := 1
                     createdAt := { ts := 5000, year := 2020, month := 3, hour := 10 }
                     entryType := "IN"
                     amount := 5
                     cashierId := 1 }] }

/-- The all-zero/empty Report returned for a period with no matching
records: zero summary blocks, empty rankings and breakdowns, and
zero-filled trend buckets. -/
def emptyReport (ms : ℕ) : Report :=
  { currentPeriodStats := zeroStats
    previousPeriodStats := zeroStats
    itemsSoldTotal := 0
    topProducts := []
    monthlyTrend := zeroFillMonths []
    monthlyItemsTrend := zeroFillItemMonths []
    paymentMethodBreakdown := []
    refundStats := { refundCount := 0, refundAmount := 0 }
    salesByItem := []
    salesByCashier := []
    hourlyStats := zeroFillHours []
    generatedInMs := ms }

/-! ## Theorems -/

/-- C9: when the `DEMO_MODE` constant is true, every write operation
guarded by `checkDemoMode` short-circuits with the fixed error message
"Demo mode - Create/Update/Delete operations are disabled" and does not
proceed; when it is false, the check returns null and the operation
proceeds.  (In this repository the constant is set to true.) -/
theorem checkDemoMode_gates_writes :
    (∀ (α : Type) (op : α),
      guardedWrite true op
        = Except.error
            (errorResponse "Demo mode - Create/Update/Delete operations are disabled"))
    ∧ checkDemoMode false = none
    ∧ (∀ (α : Type) (op : α), guardedWrite false op = Except.ok op)
    ∧ DEMO_MODE = true := by
  refine ⟨fun α op => rfl, rfl, fun α op => rfl, rfl⟩

/-- C10: with `DEMO_MODE` true, `usePermissionGuard` returns
`loading = false`, `hasAccess = true`, empty permissions and role
`SUPER_ADMIN`, skips the `ME` query, and never redirects, for every
module/action; with `DEMO_MODE` false, a `SUPER_ADMIN` user has
`hasAccess = true` regardless of the requested module and actions. -/
theorem usePermissionGuard_demo_and_superadmin :
    (∀ (meLoading : Bool) (me : Option MeData) (opts : GuardOptions),
      usePermissionGuard true meLoading me opts
          = { loading := false
              hasAccess := true
              userPermissions := emptyPerms
              userRole := some "SUPER_ADMIN" }
        ∧ guardIssuesMeQuery true = false
        ∧ guardRedirect true meLoading me opts = none)
    ∧ (∀ (meLoading : Bool) (perms : PermMap) (opts : GuardOptions),
      (usePermissionGuard false meLoading
          (some { role := "SUPER_ADMIN", permissions := perms }) opts).hasAccess = true) := by
  constructor
  · intro meLoading me opts
    exact ⟨rfl, rfl, rfl⟩
  · intro meLoading perms opts
    simp [usePermissionGuard]

/-- C6: inputs with `periodStart > periodEnd` or `year` outside the
supported range are rejected synchronously with `InvalidPeriod`, and no
sub-query is dispatched to the Record Store. -/
theorem saleReport_invalidPeriod_rejected_before_dispatch
    (store : RecordStore) (tr : Transport) (args : ReportArgs) (ms : ℕ)
    (h : args.periodStart > args.periodEnd
      ∨ args.year < supportedYearMin ∨ args.year > supportedYearMax) :
    (saleReport store tr args ms).result = Except.error SaleReportError.invalidPeriod
      ∧ (saleReport store tr args ms).dispatched = [] := by
  have hv : validArgs args = false := by
    rcases h with h | h | h <;>
      · simp only [validArgs, Bool.and_eq_false_iff, decide_eq_false_iff_not, not_le]
        omega
  rw [saleReport, hv]
  exact ⟨rfl, rfl⟩

/-- C6 witness: a call with `periodStart = 1000 > 0 = periodEnd` is
rejected with `InvalidPeriod` and dispatches nothing. -/
theorem saleReport_invalidPeriod_witness :
    (saleReport outsideStore noFail invalidArgs 7).result
        = Except.error SaleReportError.invalidPeriod
      ∧ (saleReport outsideStore noFail invalidArgs 7).dispatched = [] :=
  saleReport_invalidPeriod_rejected_before_dispatch outsideStore noFail invalidArgs 7
    (Or.inl (by decide))

/-- C7: two invocations with the same arguments against an unchanged
Record Store produce identical Report content apart from the
`generatedInMs` timing field (here: any two injected duration
measurements yield the same report once that field is erased). -/
theorem saleReport_deterministic
    (store : RecordStore) (tr : Transport) (args : ReportArgs) (ms₁ ms₂ : ℕ) :
    ((saleReport store tr args ms₁).result.map fun r => { r with generatedInMs := 0 })
      = ((saleReport store tr args ms₂).result.map fun r => { r with generatedInMs := 0 })
    ∧ (saleReport store tr args ms₁).dispatched = (saleReport store tr args ms₂).dispatched := by
  rw [saleReport, saleReport]
  by_cases hv : validArgs args
  · simp only [hv, if_true]
    cases hfind : (issuedSubqueries args.compareToPrevious).find? tr
    · exact ⟨rfl, rfl⟩
    · exact ⟨rfl, rfl⟩
  · simp only [hv, if_false]
    exact ⟨rfl, rfl⟩

/-- C1: if the transport of any dispatched sub-query fails, the whole
call fails with a single `QueryFailure` carrying the name of a failed
dispatched sub-query, and no Report (in particular no partial Report)
is returned to the caller. -/
theorem saleReport_failfast
    (store : RecordStore) (tr : Transport) (args : ReportArgs) (ms : ℕ)
    (q : SubqueryName)
    (hq : q ∈ (saleReport store tr args ms).dispatched)
    (hfail : tr q = true) :
    ∃ f, (saleReport store tr args ms).result
          = Except.error (SaleReportError.queryFailure f)
      ∧ tr f = true
      ∧ f ∈ (saleReport store tr args ms).dispatched
      ∧ ∀ r, (saleReport store tr args ms).result ≠ Except.ok r := by
  by_cases hv : validArgs args = true
  · cases hfind : (issuedSubqueries args.compareToPrevious).find? tr with
    | none =>
      have hnone := List.find?_eq_none.mp hfind q
      rw [saleReport, hv] at hq
      simp only [if_true, hfind] at hq
      exact absurd hfail (hnone hq)
    | some f =>
      refine ⟨f, ?_, List.find?_some hfind, ?_, ?_⟩
      · rw [saleReport, hv]
        simp only [if_true, hfind]
      · rw [saleReport, hv]
        simp only [if_true, hfind]
        exact List.mem_of_find?_eq_some hfind
      · intro r
        rw [saleReport, hv]
        simp only [if_true, hfind]
        exact fun h => Except.noConfusion h
  · have hv' : validArgs args = false := by
      cases hval : validArgs args
      · rfl
      · exact absurd hval hv
    rw [saleReport, hv'] at hq
    simp at hq

/-- C1 witness: with only the items-sold sub-query's transport failing
on a valid window, the call fails with `QueryFailure` naming a failed
dispatched sub-query and returns no Report. -/
theorem saleReport_failfast_witness :
    (SubqueryName.itemsSold ∈ (saleReport outsideStore failItemsSold demoArgs 3).dispatched
        ∧ failItemsSold SubqueryName.itemsSold = true)
      ∧ ∃ f, (saleReport outsideStore failItemsSold demoArgs 3).result
            = Except.error (SaleReportError.queryFailure f)
        ∧ failItemsSold f = true
        ∧ f ∈ (saleReport outsideStore failItemsSold demoArgs 3).dispatched
        ∧ ∀ r, (saleReport outsideStore failItemsSold demoArgs 3).result ≠ Except.ok r :=
  ⟨⟨by decide, rfl⟩,
   saleReport_failfast outsideStore failItemsSold demoArgs 3 SubqueryName.itemsSold
     (by decide) rfl⟩

/-- C4: with `compareToPrevious = false` the previous-period sub-query
is not dispatched, its slot resolves as a successfully-completed empty
result, and any returned Report carries the zero sentinel as its
previous-period block. -/
theorem saleReport_compareFalse_skips_prev
    (store : RecordStore) (tr : Transport) (args : ReportArgs) (ms : ℕ)
    (hc : args.compareToPrevious = false) :
    SubqueryName.previousPeriod ∉ (saleReport store tr args ms).dispatched
      ∧ prevPeriodSlot store tr args = Except.ok none
      ∧ ∀ r, (saleReport store tr args ms).result = Except.ok r →
          r.previousPeriodStats = zeroStats := by
  have hslot : prevPeriodSlot store tr args = Except.ok none := by
    rw [prevPeriodSlot, hc]
    rfl
  refine ⟨?_, hslot, ?_⟩
  · by_cases hv : validArgs args = true
    · rw [saleReport, hv]
      cases hfind : (issuedSubqueries args.compareToPrevious).find? tr with
      | none =>
        simp only [if_true, hfind]
        rw [hc]
        decide
      | some f =>
        simp only [if_true, hfind]
        rw [hc]
        decide
    · have hv' : validArgs args = false := by
        cases hval : validArgs args
        · rfl
        · exact absurd hval hv
      rw [saleReport, hv']
      simp
  · intro r hr
    by_cases hv : validArgs args = true
    · cases hfind : (issuedSubqueries args.compareToPrevious).find? tr with
      | none =>
        rw [saleReport, hv] at hr
        simp only [if_true, hfind, Except.ok.injEq] at hr
        rw [← hr, assembleReport, hslot]
        rfl
      | some f =>
        rw [saleReport, hv] at hr
        simp only [if_true, hfind] at hr
        exact Except.noConfusion hr
    · have hv' : validArgs args = false := by
        cases hval : validArgs args
        · rfl
        · exact absurd hval hv
      rw [saleReport, hv'] at hr
      exact Except.noConfusion hr

/-- C4 witness: on the demo window with comparison disabled — and even
with the previous-period transport rigged to fail — sub-query 3 is not
dispatched, its slot resolves to the empty success, and the returned
Report's previous-period block is the zero sentinel. -/
theorem saleReport_compareFalse_skips_prev_witness :
    SubqueryName.previousPeriod
        ∉ (saleReport outsideStore failPrevPeriod demoArgsNoCompare 9).dispatched
      ∧ prevPeriodSlot outsideStore failPrevPeriod demoArgsNoCompare = Except.ok none
      ∧ ∀ r, (saleReport outsideStore failPrevPeriod demoArgsNoCompare 9).result
            = Except.ok r → r.previousPeriodStats = zeroStats :=
  saleReport_compareFalse_skips_prev outsideStore failPrevPeriod demoArgsNoCompare 9 rfl

/-- Helper: a Report returned through `Except.ok` is exactly the
assembled merge of the sub-query results. -/
theorem saleReport_ok_eq
    (store : RecordStore) (tr : Transport) (args : ReportArgs) (ms : ℕ) (r : Report)
    (hok : (saleReport store tr args ms).result = Except.ok r) :
    r = assembleReport store tr args ms := by
  by_cases hv : validArgs args = true
  · cases hfind : (issuedSubqueries args.compareToPrevious).find? tr with
    | none =>
      rw [saleReport, hv] at hok
      simp only [if_true, hfind, Except.ok.injEq] at hok
      exact hok.symm
    | some f =>
      rw [saleReport, hv] at hok
      simp only [if_true, hfind] at hok
      exact Except.noConfusion hok
  · have hv' : validArgs args = false := by
      cases hval : validArgs args
      · rfl
      · exact absurd hval hv
    rw [saleReport, hv'] at hok
    exact Except.noConfusion hok

/-- Helper: the zero-filled monthly trend has exactly 12 buckets. -/
theorem zeroFillMonths_length (raw : List MonthBucket) :
    (zeroFillMonths raw).length = 12 := by
  simp [zeroFillMonths]

/-- Helper: bucket `i` of the zero-filled monthly trend is tagged with
month `i + 1`. -/
theorem zeroFillMonths_month (raw : List MonthBucket) (i : ℕ)
    (hi : i < (zeroFillMonths raw).length) :
    ((zeroFillMonths raw)[i]).month = i + 1 := by
  have hi' : i < 12 := by simpa using hi
  simp only [zeroFillMonths, List.getElem_map, List.getElem_range]
  cases h : raw.find? (fun b => b.month == i + 1) with
  | none => rfl
  | some b =>
    have hb := List.find?_some h
    simpa using hb

/-- Helper: a month absent from the grouped rows is synthesized as a
zero bucket. -/
theorem zeroFillMonths_absent (raw : List MonthBucket) (i : ℕ)
    (hi : i < (zeroFillMonths raw).length)
    (h : raw.find? (fun b => b.month == i + 1) = none) :
    (zeroFillMonths raw)[i]
      = { month := i + 1, totalAmountSales := 0, numberOfTransactions := 0 } := by
  simp only [zeroFillMonths, List.getElem_map, List.getElem_range, h]

/-- Helper: the zero-filled hourly statistics have exactly 24 buckets. -/
theorem zeroFillHours_length (raw : List HourBucket) :
    (zeroFillHours raw).length = 24 := by
  simp [zeroFillHours]

/-- Helper: bucket `h` of the zero-filled hourly statistics is tagged
with hour `h`. -/
theorem zeroFillHours_hour (raw : List HourBucket) (h : ℕ)
    (hh : h < (zeroFillHours raw).length) :
    ((zeroFillHours raw)[h]).hour = h := by
  have hh' : h < 24 := by simpa using hh
  simp only [zeroFillHours, List.getElem_map, List.getElem_range]
  cases hf : raw.find? (fun b => b.hour == h) with
  | none => rfl
  | some b =>
    have hb := List.find?_some hf
    simpa using hb

/-- Helper: an hour absent from the grouped rows is synthesized as a
zero bucket. -/
theorem zeroFillHours_absent (raw : List HourBucket) (h : ℕ)
    (hh : h < (zeroFillHours raw).length)
    (hf : raw.find? (fun b => b.hour == h) = none) :
    (zeroFillHours raw)[h]
      = { hour := h, totalAmountSales := 0, numberOfTransactions := 0 } := by
  simp only [zeroFillHours, List.getElem_map, List.getElem_range, hf]

/-- C3: every returned Report's `monthlyTrend` has exactly 12 entries
tagged with months 1–12 in order and its `hourlyStats` has exactly 24
entries for hours 0–23, however many buckets have data; any month or
hour absent from the store's grouped rows is synthesized as a
zero-valued entry. -/
theorem saleReport_trend_shape
    (store : RecordStore) (tr : Transport) (args : ReportArgs) (ms : ℕ) (r : Report)
    (hok : (saleReport store tr args ms).result = Except.ok r) :
    r.monthlyTrend.length = 12
      ∧ (∀ i (hi : i < r.monthlyTrend.length), (r.monthlyTrend[i]).month = i + 1)
      ∧ (∀ i (hi : i < r.monthlyTrend.length),
          (monthlyRaw store args.year).find? (fun b => b.month == i + 1) = none →
          r.monthlyTrend[i]
            = { month := i + 1, totalAmountSales := 0, numberOfTransactions := 0 })
      ∧ r.hourlyStats.length = 24
      ∧ (∀ h (hh : h < r.hourlyStats.length), (r.hourlyStats[h]).hour = h)
      ∧ (∀ h (hh : h < r.hourlyStats.length),
          (hourlyRaw store args).find? (fun b => b.hour == h) = none →
          r.hourlyStats[h]
            = { hour := h, totalAmountSales := 0, numberOfTransactions := 0 }) := by
  have he := saleReport_ok_eq store tr args ms r hok
  subst he
  refine ⟨zeroFillMonths_length _, ?_, ?_, zeroFillHours_length _, ?_, ?_⟩
  · intro i hi
    exact zeroFillMonths_month _ i hi
  · intro i hi hf
    exact zeroFillMonths_absent _ i hi hf
  · intro h hh
    exact zeroFillHours_hour _ h hh
  · intro h hh hf
    exact zeroFillHours_absent _ h hh hf

/-- C3 witness: on a concrete store whose only records lie outside the
demo year and window, the returned Report still has 12 monthly and 24
hourly buckets. -/
theorem saleReport_trend_shape_witness :
    (saleReport outsideStore noFail demoArgs 0).result
        = Except.ok (assembleReport outsideStore noFail demoArgs 0)
      ∧ (assembleReport outsideStore noFail demoArgs 0).monthlyTrend.length = 12
      ∧ (assembleReport outsideStore noFail demoArgs 0).hourlyStats.length = 24 := by
  have hok : (saleReport outsideStore noFail demoArgs 0).result
      = Except.ok (assembleReport outsideStore noFail demoArgs 0) := rfl
  have h := saleReport_trend_shape outsideStore noFail demoArgs 0 _ hok
  exact ⟨hok, h.1, h.2.2.2.1⟩

/-- Helper: membership in the key column after folding one pair into
the grouped totals. -/
theorem mem_keys_addToGroups (acc : List (ℕ × ℕ)) (k q x : ℕ) :
    x ∈ (addToGroups acc k q).map Prod.fst ↔ x ∈ acc.map Prod.fst ∨ x = k := by
  induction acc with
  | nil => simp [addToGroups]
  | cons p rest ih =>
    obtain ⟨k', q'⟩ := p
    by_cases h : k' = k
    · subst h
      simp only [addToGroups, beq_self_eq_true, if_true, List.map_cons, List.mem_cons]
      constructor
      · intro hx
        rcases hx with hx | hx
        · exact Or.inr hx
        · exact Or.inl (Or.inr hx)
      · intro hx
        rcases hx with (hx | hx) | hx
        · exact Or.inl hx
        · exact Or.inr hx
        · exact Or.inl hx
    · have hbeq : (k' == k) = false := beq_false_of_ne h
      simp only [addToGroups, hbeq, Bool.false_eq_true, if_false, List.map_cons,
        List.mem_cons, ih]
      tauto

/-- Helper: folding one pair into the grouped totals preserves
distinctness of the key column. -/
theorem addToGroups_keys_nodup (acc : List (ℕ × ℕ)) (k q : ℕ)
    (h : (acc.map Prod.fst).Nodup) : ((addToGroups acc k q).map Prod.fst).Nodup := by
  induction acc with
  | nil => simp [addToGroups]
  | cons p rest ih =>
    obtain ⟨k', q'⟩ := p
    simp only [List.map_cons, List.nodup_cons] at h
    by_cases hk : k' = k
    · subst hk
      simp only [addToGroups, beq_self_eq_true, if_true, List.map_cons, List.nodup_cons]
      exact h
    · have hbeq : (k' == k) = false := beq_false_of_ne hk
      simp only [addToGroups, hbeq, Bool.false_eq_true, if_false, List.map_cons,
        List.nodup_cons]
      refine ⟨?_, ih h.2⟩
      rw [mem_keys_addToGroups]
      intro hx
      rcases hx with hx | hx
      · exact h.1 hx
      · exact hk hx

/-- Helper: the `$group` by product produces one row per product: the
key column of `groupByProduct` is duplicate-free. -/
theorem groupByProduct_keys_nodup (items : List SaleItem) :
    ((groupByProduct items).map Prod.fst).Nodup := by
  suffices h : ∀ acc : List (ℕ × ℕ), (acc.map Prod.fst).Nodup →
      ((items.foldl (fun acc it => addToGroups acc it.productId it.quantity) acc).map
        Prod.fst).Nodup by
    exact h [] (by simp)
  induction items with
  | nil => intro acc hacc; simpa using hacc
  | cons it rest ih =>
    intro acc hacc
    exact ih _ (addToGroups_keys_nodup acc it.productId it.quantity hacc)

/-- C8: in every Report the top-products ranking is the truncation (to
the configured limit) of the product rows sorted descending by summed
quantity; two products with equal summed quantity appear in ascending
`productId` order. -/
theorem topProducts_ranking (store : RecordStore) (args : ReportArgs) :
    (∀ (tr : Transport) (ms : ℕ) (r : Report),
      (saleReport store tr args ms).result = Except.ok r →
      r.topProducts = topProductsPipeline store args)
    ∧ (topProductsPipeline store args).length ≤ topProductsLimit
    ∧ ∀ i j (hi : i < (topProductsPipeline store args).length)
        (hj : j < (topProductsPipeline store args).length), i < j →
        ((topProductsPipeline store args)[j]).quantity
            ≤ ((topProductsPipeline store args)[i]).quantity
        ∧ (((topProductsPipeline store args)[i]).quantity
              = ((topProductsPipeline store args)[j]).quantity →
            ((topProductsPipeline store args)[i]).productId
              < ((topProductsPipeline store args)[j]).productId) := by
  set ranks : List ProductRank :=
    (groupByProduct (itemsWithParent store fun s =>
        inPeriod args.periodStart args.periodEnd s.createdAt)).map
      fun p => ProductRank.mk p.1 p.2 with hranks
  have hpipe : topProductsPipeline store args
      = (ranks.insertionSort rankLE).take topProductsLimit := rfl
  have hsorted : (ranks.insertionSort rankLE).Pairwise rankLE :=
    List.sorted_insertionSort rankLE ranks
  have htakesorted : (topProductsPipeline store args).Pairwise rankLE := by
    rw [hpipe]
    exact hsorted.sublist (List.take_sublist _ _)
  have hpids : (ranks.map (·.productId)).Nodup := by
    have : ranks.map (·.productId)
        = (groupByProduct (itemsWithParent store fun s =>
            inPeriod args.periodStart args.periodEnd s.createdAt)).map Prod.fst := by
      rw [hranks, List.map_map]
      rfl
    rw [this]
    exact groupByProduct_keys_nodup _
  have hsortpids : ((ranks.insertionSort rankLE).map (·.productId)).Nodup := by
    have hperm : List.Perm (ranks.insertionSort rankLE) ranks :=
      List.perm_insertionSort rankLE ranks
    exact ((hperm.map (·.productId)).nodup_iff).mpr hpids
  have htakepids : ((topProductsPipeline store args).map (·.productId)).Nodup := by
    rw [hpipe]
    have hsub : List.Sublist
        (((ranks.insertionSort rankLE).take topProductsLimit).map (·.productId))
        ((ranks.insertionSort rankLE).map (·.productId)) :=
      List.Sublist.map (fun x : ProductRank => x.productId)
        (List.take_sublist topProductsLimit (ranks.insertionSort rankLE))
    exact List.Nodup.sublist hsub hsortpids
  refine ⟨?_, ?_, ?_⟩
  · intro tr ms r hok
    have he := saleReport_ok_eq store tr args ms r hok
    subst he
    rfl
  · rw [hpipe]
    exact List.length_take_le _ _
  · intro i j hi hj hij
    have hrel := List.pairwise_iff_get.mp htakesorted ⟨i, hi⟩ ⟨j, hj⟩ hij
    have hne : ((topProductsPipeline store args)[i]).productId
        ≠ ((topProductsPipeline store args)[j]).productId := by
      intro heq
      have hmapeq : ((topProductsPipeline store args).map (·.productId)).get
            ⟨i, by simpa using hi⟩
          = ((topProductsPipeline store args).map (·.productId)).get
            ⟨j, by simpa using hj⟩ := by
        simpa using heq
      have := List.Nodup.get_inj_iff htakepids |>.mp hmapeq
      simp only [Fin.mk.injEq] at this
      omega
    rcases hrel with hlt | ⟨heq, hle⟩
    · refine ⟨le_of_lt hlt, fun heq => absurd heq.symm (ne_of_lt hlt)⟩
    · exact ⟨le_of_eq heq.symm, fun _ => lt_of_le_of_ne hle hne⟩

/-- C8 witness: products 3 and 5 tie at summed quantity 7 over the demo
window, and the ranking lists product 3 before product 5. -/
theorem topProducts_ranking_witness :
    (assembleReport tieStore noFail demoArgs 0).topProducts
        = topProductsPipeline tieStore demoArgs
      ∧ (topProductsPipeline tieStore demoArgs).length ≤ topProductsLimit
      ∧ ((topProductsPipeline tieStore demoArgs).get ⟨1, by decide⟩).quantity
          ≤ ((topProductsPipeline tieStore demoArgs).get ⟨0, by decide⟩).quantity
      ∧ (((topProductsPipeline tieStore demoArgs).get ⟨0, by decide⟩).quantity
            = ((topProductsPipeline tieStore demoArgs).get ⟨1, by decide⟩).quantity →
          ((topProductsPipeline tieStore demoArgs).get ⟨0, by decide⟩).productId
            < ((topProductsPipeline tieStore demoArgs).get ⟨1, by decide⟩).productId) := by
  have h := topProducts_ranking tieStore demoArgs
  have hc := h.2.2 0 1 (by decide) (by decide) (by decide)
  exact ⟨h.1 noFail 0 _ rfl, h.2.1, hc.1, hc.2⟩

/-- Helper: the item-to-sale join yields nothing when every sale fails
the parent filter. -/
theorem itemsWithParent_eq_nil (store : RecordStore) (p : Sale → Bool)
    (h : ∀ s ∈ store.sales, p s = false) : itemsWithParent store p = [] := by
  rw [itemsWithParent, List.filter_eq_nil_iff]
  intro it hit
  cases hps : parentSale store it with
  | none => simp [hps]
  | some s => simp [hps, h s (List.mem_of_find?_eq_some hps)]

/-- C5: for a period (and trend year) in which no record matches any of
the aggregator's filters, the call succeeds with no error and the
returned Report is the all-zero/empty Report; an empty query result is
never treated as a failure. -/
theorem saleReport_empty_period
    (store : RecordStore) (tr : Transport) (args : ReportArgs) (ms : ℕ)
    (hv : validArgs args = true)
    (htr : ∀ q, tr q = false)
    (hs : ∀ s ∈ store.sales,
        inPeriod args.periodStart args.periodEnd s.createdAt = false
          ∧ inPrevPeriod args s.createdAt = false
          ∧ inYear args.year s.createdAt = false)
    (hcd : ∀ c ∈ store.cashDrawer,
        inPeriod args.periodStart args.periodEnd c.createdAt = false) :
    (saleReport store tr args ms).result = Except.ok (emptyReport ms) := by
  have hfind : (issuedSubqueries args.compareToPrevious).find? tr = none :=
    List.find?_eq_none.mpr fun x _ => by simp [htr x]
  have hcur : currentPeriodSales store args = [] := by
    rw [currentPeriodSales, List.filter_eq_nil_iff]
    intro s hsm
    simp [(hs s hsm).1]
  have hprev : prevPeriodSales store args = [] := by
    rw [prevPeriodSales, List.filter_eq_nil_iff]
    intro s hsm
    simp [(hs s hsm).2.1]
  have hitems : itemsWithParent store
      (fun s => inPeriod args.periodStart args.periodEnd s.createdAt) = [] :=
    itemsWithParent_eq_nil store _ fun s hsm => (hs s hsm).1
  have hMR : monthlyRaw store args.year = [] := by
    rw [monthlyRaw]
    apply List.filterMap_eq_nil_iff.mpr
    intro i hi
    have hempty : store.sales.filter (fun s =>
        s.status == SaleStatus.COMPLETED && inYear args.year s.createdAt
          && s.createdAt.month == i + 1) = [] := by
      rw [List.filter_eq_nil_iff]
      intro s hsm
      simp [(hs s hsm).2.2]
    simp [hempty]
  have hMIR : monthlyItemsRaw store args.year = [] := by
    rw [monthlyItemsRaw]
    apply List.filterMap_eq_nil_iff.mpr
    intro i hi
    have hempty : itemsWithParent store (fun s =>
        s.status == SaleStatus.COMPLETED && inYear args.year s.createdAt
          && s.createdAt.month == i + 1) = [] :=
      itemsWithParent_eq_nil store _ fun s hsm => by simp [(hs s hsm).2.2]
    simp [hempty]
  have hHR : hourlyRaw store args = [] := by
    rw [hourlyRaw]
    apply List.filterMap_eq_nil_iff.mpr
    intro h hh
    simp [hcur]
  have hrefund : refundAgg store args = none := by
    rw [refundAgg]
    have hempty : store.sales.filter (fun s =>
        s.status == SaleStatus.REFUNDED
          && inPeriod args.periodStart args.periodEnd s.createdAt) = [] := by
      rw [List.filter_eq_nil_iff]
      intro s hsm
      simp [(hs s hsm).1]
    simp [hempty]
  have hpay : paymentMethodPipeline store args = [] := by
    rw [paymentMethodPipeline]
    have hempty : store.cashDrawer.filter (fun c =>
        inPeriod args.periodStart args.periodEnd c.createdAt) = [] := by
      rw [List.filter_eq_nil_iff]
      intro c hcm
      simp [hcd c hcm]
    rw [hempty]
    rfl
  have hslot : prevPeriodSlot store tr args = Except.ok none := by
    rw [prevPeriodSlot]
    cases hc : args.compareToPrevious with
    | false => rfl
    | true =>
      rw [if_pos rfl, runSub, htr SubqueryName.previousPeriod, hprev]
      rfl
  have hres : (saleReport store tr args ms).result
      = Except.ok (assembleReport store tr args ms) := by
    rw [saleReport, hv]
    simp only [if_true, hfind]
  rw [hres]
  congr 1
  rw [assembleReport, emptyReport]
  simp only [monthlyTrendPipeline, monthlyItemsTrendPipeline, hourlyStatsPipeline,
    topProductsPipeline, itemsSoldTotalPipeline, salesByItemPipeline,
    salesByCashierPipeline, hcur, hprev, hitems, hMR, hMIR, hHR, hrefund, hpay, hslot]
  rfl

/-- C5 witness: on the demo window over a store whose only records lie
outside the window, its preceding window, and the trend year, the call
succeeds and returns the all-zero Report. -/
theorem saleReport_empty_period_witness :
    validArgs demoArgs = true
      ∧ (saleReport outsideStore noFail demoArgs 11).result
          = Except.ok (emptyReport 11) :=
  ⟨by decide,
   saleReport_empty_period outsideStore noFail demoArgs 11 (by decide)
     (fun q => rfl) (by decide) (by decide)⟩

/-- C2 counterexample: the claim that monetary sums use exact decimal
or integer-cents arithmetic fails on the code.  `priceAtSale` and
`totalAmount` are JavaScript `Number`s (Mongoose schema type `Number`,
i.e. IEEE-754 binary64), and the store's `$sum` accumulates doubles:
over three completed sales priced 1.10, 2.20 and 3.30 the returned
Report's `totalAmountSales` is not exactly the decimal 6.60 (it is the
nearest representable double, 0.4 ulp below it). -/
theorem saleReport_money_counterexample :
    (saleReport moneyStore noFail demoArgs 0).result
        = Except.ok (assembleReport moneyStore noFail demoArgs 0)
      ∧ (assembleReport moneyStore noFail demoArgs 0).currentPeriodStats.totalAmountSales
          ≠ 66 / 10 := by
  refine ⟨rfl, ?_⟩
  have h : (assembleReport moneyStore noFail demoArgs
      0).currentPeriodStats.totalAmountSales.num = 3715469692580659 := by
    with_unfolding_all rfl
  intro he
  rw [he] at h
  norm_num at h

/-- C2 amended: monetary sums in the Report are accumulated with
IEEE-754 binary64 (JavaScript `Number`) additions, not exact decimal
arithmetic; summing the stored doubles for 1.10, 2.20 and 3.30 (the
last addition lands on a tie and rounds to even) yields
`totalAmountSales` exactly `3715469692580659 / 2^49`
= 6.5999999999999996…, which is the binary64 double nearest to 6.6
(so it compares equal to the double literal `6.6`) but lies strictly
below, hence is not, the exact decimal 6.60. -/
theorem saleReport_money_binary64 :
    (saleReport moneyStore noFail demoArgs 0).result
        = Except.ok (assembleReport moneyStore noFail demoArgs 0)
      ∧ (assembleReport moneyStore noFail demoArgs 0).currentPeriodStats.totalAmountSales
          = sumF64 [jsNumber 11 10, jsNumber 22 10, jsNumber 33 10]
      ∧ sumF64 [jsNumber 11 10, jsNumber 22 10, jsNumber 33 10]
          = 3715469692580659 / 2 ^ 49
      ∧ (3715469692580659 / 2 ^ 49 : ℚ) = jsNumber 66 10
      ∧ (3715469692580659 / 2 ^ 49 : ℚ) < 66 / 10 := by
  refine ⟨rfl, ?_, ?_, ?_, ?_⟩
  · with_unfolding_all rfl
  · with_unfolding_all rfl
  · with_unfolding_all rfl
  · norm_num

end POS
